import Mathlib

/-!
Shallow embedding of the size-computation / adaptive-allocation core of the
ThingsBoard HTTP client SDK (src/ThingsBoardHttp.h, src/Helper.h,
src/DefaultLogger.cpp), in the fixed-capacity configuration
(THINGSBOARD_ENABLE_DYNAMIC = 0, THINGSBOARD_ENABLE_STL = 1).

Machine integers are embedded as Nat/Int with explicit reductions modulo
2^32 (uint32_t / unsigned int) and 2^8 (uint8_t) where the source relies on
conversion or wraparound.
-/

namespace TBHttp

/-- The modulus of `uint32_t` / `unsigned int` arithmetic. -/
def U32MOD : Nat := 4294967296

/-- The first value that is negative when reinterpreted as `int32_t`. -/
def I32HALF : Nat := 2147483648

/-- Conversion of a C `int` value to `unsigned int` (value modulo 2^32). -/
def u32ofInt (i : Int) : Nat := (i % (U32MOD : Int)).toNat

/-- Reinterpretation of a 32-bit unsigned value as a signed `int32_t`. -/
def i32ofU32 (n : Nat) : Int := if n < I32HALF then (n : Int) else (n : Int) - (U32MOD : Int)

/-- Unsigned 32-bit subtraction of 1 (`jsonSize - 1` in the source), with wraparound at 0. -/
def u32pred (n : Nat) : Nat := (n + (U32MOD - 1)) % U32MOD

/-- The type tag structs `Bool()`, `Int()`, `Float()`, `CString()` used to pick a
`Telemetry` constructor, plus the `None` state of an invalid record. -/
inductive DataType
  | tNone
  | tBool
  | tInt
  | tFloat
  | tCString
deriving DecidableEq, Repr

/-- The value stored inside one telemetry/attribute record.  Floating point is not
shallowly embeddable, so a `Float` value is abstracted by its serialized decimal
text, which is all the size/serialization core observes of it. -/
inductive TBValue
  | vNone
  | vBool (b : Bool)
  | vInt (i : Int)
  | vFloat (rendering : String)
  | vCString (s : String)
deriving DecidableEq, Repr

/-- The tag actually matching a value's representation. -/
def TBValue.tag : TBValue → DataType
  | .vNone => .tNone
  | .vBool _ => .tBool
  | .vInt _ => .tInt
  | .vFloat _ => .tFloat
  | .vCString _ => .tCString

/-- Modelled from the spec: the `Telemetry` record class (its header `Telemetry.h`
is not under src/; only its callers in `ThingsBoardHttp.h` are).  A record is the
tagged key/value pair, the `None` variant being the empty sentinel. -/
inductive Telemetry
  | empty
  | record (key : String) (value : TBValue)
deriving DecidableEq, Repr

/-- Modelled from the spec: constructing a record from a `(type-tag, key, value)`
triple; a null key (`none`) or a tag that does not match the value's actual
representation collapses the record to the empty `None` variant. -/
def mkTelemetry (t : DataType) (key : Option String) (v : TBValue) : Telemetry :=
  match key with
  | none => .empty
  | some k => if t = v.tag ∧ t ≠ .tNone then .record k v else .empty

/-- Modelled from the spec: `Telemetry::IsEmpty`. -/
def Telemetry.IsEmpty : Telemetry → Bool
  | .empty => true
  | .record _ _ => false

/-- The key of a record, `none` for the empty sentinel. -/
def Telemetry.keyOf : Telemetry → Option String
  | .empty => none
  | .record k _ => some k

/-- The ArduinoJson document underlying `StaticJsonDocument<JSON_OBJECT_SIZE(MaxFieldsAmt)>`
together with its root `JsonVariant`: an ordered list of members over a fixed memory
pool holding up to `capacity` member slots (keys are `const char*`, zero copy). -/
structure JsonDoc where
  capacity : Nat
  members : List (String × TBValue)
deriving DecidableEq, Repr

/-- ArduinoJson member insertion `object[key] = value`: replacing an existing key
costs no new slot; a fresh key takes a slot and fails (returns `none`) when the
fixed pool is exhausted. -/
def JsonDoc.insert (d : JsonDoc) (k : String) (v : TBValue) : Option JsonDoc :=
  if (d.members.map Prod.fst).contains k then
    some { d with members := d.members.map (fun p => if p.1 = k then (k, v) else p) }
  else if d.members.length < d.capacity then
    some { d with members := d.members ++ [(k, v)] }
  else
    none

/-- The check `jsonVariant.isNull()`: the root variant obtained from `to<JsonVariant>()` stays
null until a first member is inserted. -/
def JsonDoc.isNull (d : JsonDoc) : Bool := d.members.isEmpty

/-- Modelled from the spec: `Telemetry::SerializeKeyValue` contributes the record's
key/value pair into the accumulating document; serializing an empty record is a
no-op that reports failure upward, and a contribution also fails when the
underlying JSON capability reports a capacity failure. -/
def Telemetry.SerializeKeyValue (t : Telemetry) (d : JsonDoc) : Option JsonDoc :=
  match t with
  | .empty => none
  | .record k v => d.insert k v

/-- Rendering of one member value in the serialized JSON text. -/
def renderValue : TBValue → String
  | .vNone => "null"
  | .vBool true => "true"
  | .vBool false => "false"
  | .vInt i => toString i
  | .vFloat r => r
  | .vCString s => "\x22" ++ s ++ "\x22"

/-- The text `serializeJson` produces for the document's root variant (a null root
renders as the four characters of null; an object renders with no padding). -/
def serializeDoc (d : JsonDoc) : String :=
  if d.members.isEmpty then "null"
  else
    "\x7b" ++ String.intercalate ","
      (d.members.map (fun p => "\x22" ++ p.1 ++ "\x22:" ++ renderValue p.2)) ++ "\x7d"

/-- The measurement `measureJson(object)`: length of the serialized text, excluding the terminator. -/
def measureJson (d : JsonDoc) : Nat := (serializeDoc d).length

/-- The ArduinoJson macro `JSON_STRING_SIZE(SIZE)`, which is `SIZE + 1`. -/
def JSON_STRING_SIZE (n : Nat) : Nat := n + 1

/-- The helper `Helper::Measure_Json`: serialized size plus one byte for the null terminator. -/
def Measure_Json (d : JsonDoc) : Nat := JSON_STRING_SIZE (measureJson d)

/-- Bytes written by `serializeJson(object, buffer, bufferSize)` (excluding the null
terminator it always appends): the full text, truncated to fit the buffer. -/
def serializeWritten (d : JsonDoc) (bufferSize : Nat) : Nat :=
  min (serializeDoc d).length (bufferSize - 1)

/-- Observable outcome of one run through the adaptive-allocation block of
`sendTelemetryJson(const JsonObject&/JsonVariant&, const uint32_t&)` and
`sendAttributeJSON(...)` (ThingsBoardHttp.h lines 212-239, 262-289, 396-423,
446-473 — the four copies are textually identical). -/
structure BodyRun where
  result : Bool
  heapAllocs : Nat
  heapFrees : Nat
  usedStackBuffer : Bool
  loggedSerializeFailure : Bool
  posted : Bool
deriving DecidableEq, Repr

/-- The adaptive-allocation block: `if (getMaximumStackSize() < jsonSize)` allocate
`new char[jsonSize]` on the heap, serialize, send unless truncated, and
`delete[]` on every path; otherwise use a stack `char json[jsonSize]`.
`written` is the count `serializeJson` returns for this buffer, and `postOk` the
outcome of the inner `sendTelemetryJson(const char*)` / `sendAttributeJSON(const char*)`
call (path formatting plus `postMessage`).  The truncation test is the source's
`written < jsonSize - 1` in `uint32_t` arithmetic. -/
def sendJsonBody (jsonSize maxStack written : Nat) (postOk : Bool) : BodyRun :=
  if maxStack < jsonSize then
    if written < u32pred jsonSize then
      { result := false, heapAllocs := 1, heapFrees := 1, usedStackBuffer := false,
        loggedSerializeFailure := true, posted := false }
    else
      { result := postOk, heapAllocs := 1, heapFrees := 1, usedStackBuffer := false,
        loggedSerializeFailure := false, posted := true }
  else
    if written < u32pred jsonSize then
      { result := false, heapAllocs := 0, heapFrees := 0, usedStackBuffer := true,
        loggedSerializeFailure := true, posted := false }
    else
      { result := postOk, heapAllocs := 0, heapFrees := 0, usedStackBuffer := true,
        loggedSerializeFailure := false, posted := true }

/-- The failure conditions the send pipeline can log (`Constants.h` message ids). -/
inductive SendError
  | allocationFailed
  | capacityExceeded
  | unableToSerialize
  | unableToSerializeJson
deriving DecidableEq, Repr

/-- Observable outcome of `sendTelemetryJson(const JsonVariant&, const uint32_t&)` /
`sendAttributeJSON(...)` including the guard checks that precede the
adaptive-allocation block. -/
structure GuardRun where
  result : Bool
  logged : Option SendError
  bufferRequested : Bool
  posted : Bool
  payload : Option String
deriving DecidableEq, Repr

/-- The method `sendTelemetryJson(const JsonVariant&, const uint32_t&)` (ThingsBoardHttp.h
lines 246-290) and its three textually identical siblings, in the fixed-capacity
configuration: the `isNull()` guard, the `MaxFieldsAmt < size()` guard, then the
adaptive-allocation block `sendJsonBody`.  `jsonSize` is the caller-measured size
and `postOk` the transport outcome; `payload` is the buffer contents handed on. -/
def sendJsonVariantSized (maxFields maxStack : Nat) (d : JsonDoc) (jsonSize : Nat)
    (postOk : Bool) : GuardRun :=
  if d.isNull then
    { result := false, logged := some .allocationFailed, bufferRequested := false,
      posted := false, payload := none }
  else if maxFields < d.members.length then
    { result := false, logged := some .capacityExceeded, bufferRequested := false,
      posted := false, payload := none }
  else
    let written := serializeWritten d jsonSize
    let b := sendJsonBody jsonSize maxStack written postOk
    { result := b.result,
      logged := if b.loggedSerializeFailure then some .unableToSerializeJson else none,
      bufferRequested := true, posted := b.posted,
      payload := if b.posted then some ((serializeDoc d).take written) else none }

/-- The contribution loop of `sendDataArray` (ThingsBoardHttp.h lines 554-559):
calls `SerializeKeyValue` on each record in order until one fails; returns the
final document (or `none` on the first failure) paired with the number of
contribution calls actually made. -/
def runContributions : List Telemetry → JsonDoc → Option JsonDoc × Nat
  | [], d => (some d, 0)
  | r :: rest, d =>
    match r.SerializeKeyValue d with
    | none => (none, 1)
    | some d2 =>
      let p := runContributions rest d2
      (p.1, p.2 + 1)

/-- Observable outcome of one `sendDataArray` run. -/
structure ArrayRun where
  result : Bool
  logged : Option SendError
  contributions : Nat
  measured : Bool
  bufferRequested : Bool
  posted : Bool
  payload : Option String
deriving DecidableEq, Repr

/-- The method `sendDataArray` (ThingsBoardHttp.h lines 542-567) in the fixed-capacity
configuration: a `StaticJsonDocument<JSON_OBJECT_SIZE(MaxFieldsAmt)>` is filled by
the contribution loop (any failure logs `UNABLE_TO_SERIALIZE` and returns false);
only then is the document measured (`JSON_STRING_SIZE(measureJson(object))`) and
handed to `sendTelemetryJson`/`sendAttributeJSON`. -/
def sendDataArray (maxFields maxStack : Nat) (records : List Telemetry)
    (postOk : Bool) : ArrayRun :=
  let d0 : JsonDoc := { capacity := maxFields, members := [] }
  match runContributions records d0 with
  | (none, n) =>
    { result := false, logged := some .unableToSerialize, contributions := n,
      measured := false, bufferRequested := false, posted := false, payload := none }
  | (some d, n) =>
    let g := sendJsonVariantSized maxFields maxStack d (Measure_Json d) postOk
    { result := g.result, logged := g.logged, contributions := n, measured := true,
      bufferRequested := g.bufferRequested, posted := g.posted, payload := g.payload }

/-- Observable outcome of one `sendKeyValue` run. -/
structure KVRun where
  result : Bool
  docBuilt : Bool
  posted : Bool
  logged : Option SendError
deriving DecidableEq, Repr

/-- The method `sendKeyValue` (ThingsBoardHttp.h lines 576-592): builds one `Telemetry` from
the tag/key/value triple; an empty record returns false before any document is
created; otherwise a one-slot `StaticJsonDocument<JSON_OBJECT_SIZE(1)>` is filled
and handed, measured, to the JSON send path. -/
def sendKeyValue (maxFields maxStack : Nat) (tag : DataType) (key : Option String)
    (v : TBValue) (postOk : Bool) : KVRun :=
  let t := mkTelemetry tag key v
  if t.IsEmpty then
    { result := false, docBuilt := false, posted := false, logged := none }
  else
    let d0 : JsonDoc := { capacity := 1, members := [] }
    match t.SerializeKeyValue d0 with
    | none =>
      { result := false, docBuilt := true, posted := false, logged := some .unableToSerialize }
    | some d =>
      let g := sendJsonVariantSized maxFields maxStack d (Measure_Json d) postOk
      { result := g.result, docBuilt := true, posted := g.posted, logged := g.logged }

/-- The ArduinoHttpClient return code for a successfully issued request. -/
def HTTP_SUCCESS : Int := 0

/-- Observable outcome of one `getMessage` run: the returned flag and the final
contents of the caller-supplied response string. -/
structure GetRun where
  result : Bool
  response : String
deriving DecidableEq, Repr

/-- The method `getMessage` (ThingsBoardHttp.h lines 516-535): on `!success || status != HTTP_SUCCESS`
it logs, sets `result = false` and jumps to cleanup past the assignment
`response = m_client.responseBody()`; only the success path assigns `response`. -/
def getMessage (success : Bool) (status : Int) (body response0 : String) : GetRun :=
  if success = false ∨ status ≠ HTTP_SUCCESS then
    { result := false, response := response0 }
  else
    { result := true, response := body }

/-- One argument forwarded to `snprintf`/`vsnprintf`. -/
inductive PrintfArg
  | aStr (s : String)
  | aInt (i : Int)
  | aNat (n : Nat)
deriving DecidableEq, Repr

/-- Dry-run rendering of a printf format over the specifiers this repository uses
(`%s`, `%d`, `%u`, `%%`); `none` models the mismatch cases on which the C library
reports a negative size (missing or type-mismatched argument, stray specifier).
Surplus arguments are ignored, as in C. -/
def renderFmt : List Char → List PrintfArg → Option (List Char)
  | [], _ => some []
  | '%' :: 's' :: rest, .aStr s :: args => (renderFmt rest args).map (fun l => s.data ++ l)
  | '%' :: 'd' :: rest, .aInt i :: args => (renderFmt rest args).map (fun l => (toString i).data ++ l)
  | '%' :: 'u' :: rest, .aNat n :: args => (renderFmt rest args).map (fun l => (toString n).data ++ l)
  | '%' :: '%' :: rest, args => (renderFmt rest args).map (fun l => '%' :: l)
  | '%' :: _, _ => none
  | c :: rest, args => (renderFmt rest args).map (fun l => c :: l)

/-- The rendered string for a well-formed format/argument pair. -/
def render (fmt : String) (args : List PrintfArg) : Option String :=
  (renderFmt fmt.data args).map (fun l => String.mk l)

/-- The dry run `snprintf(nullptr, 0, fmt, args...)` / `vsnprintf_P(nullptr, 0, msg, args)`:
the rendered length on a well-formed pair, a negative value (-1) on mismatch. -/
def snprintfSize (fmt : String) (args : List PrintfArg) : Int :=
  match render fmt args with
  | some s => (s.length : Int)
  | none => -1

/-- The function `Helper::detectSize` (Helper.h lines 26-33): `snprintf(nullptr, 0, format, args...) + 1U`
— `int + unsigned` is computed in `unsigned int` and converted back to the signed
`int result` — then `assert(result >= 0)`; `none` models the assertion firing. -/
def Helper.detectSize (fmt : String) (args : List PrintfArg) : Option Int :=
  let result := i32ofU32 ((u32ofInt (snprintfSize fmt args) + 1) % U32MOD)
  if 0 ≤ result then some result else none

/-- The function `ThingsBoardHttpSized::detectSize` (ThingsBoardHttp.h lines 107-123):
`const int32_t result = JSON_STRING_SIZE(vsnprintf_P(nullptr, 0, msg, args))`,
i.e. the dry-run size plus one in `int32_t` arithmetic, checked by
`assert(result >= 0)` (`none` models the assertion firing) and returned through
the `uint8_t` return type, i.e. reduced modulo 256. -/
def tbDetectSize (fmt : String) (args : List PrintfArg) : Option Nat :=
  let result := i32ofU32 (u32ofInt (snprintfSize fmt args + 1))
  if 0 ≤ result then some (result.toNat % 256) else none

/-- Nine non-empty records with pairwise distinct keys, the spec's fixed-capacity
overflow scenario for `MaxFieldsAmt = 8`. -/
def nineRecords : List Telemetry :=
  (List.range 9).map (fun i => Telemetry.record ("k" ++ toString i) (TBValue.vInt i))

/-- The spec's two-record scenario: a float and a boolean data point. -/
def twoRecords : List Telemetry :=
  [Telemetry.record "temp" (.vFloat "21.5"), Telemetry.record "on" (.vBool true)]

/-- A 300-character string, whose formatted size overflows the `uint8_t` return
type of `ThingsBoardHttpSized::detectSize`. -/
def bigStr : String := String.mk (List.replicate 300 'a')

end TBHttp

namespace TBHttp

/-- C1: for every required byte count, configured stack ceiling, serializer
outcome and transport outcome, the adaptive-allocation block performs no heap
allocation and uses the stack buffer when `jsonSize ≤ maxStack`, performs exactly
one heap allocation when `maxStack < jsonSize`, releases exactly as many buffers
as it allocates on every exit path (including the serialization-failure path),
and never releases more than once. -/
theorem sendJsonBody_alloc_discipline (jsonSize maxStack written : Nat) (postOk : Bool) :
    (sendJsonBody jsonSize maxStack written postOk).heapAllocs
        = (if maxStack < jsonSize then 1 else 0)
    ∧ (sendJsonBody jsonSize maxStack written postOk).heapFrees
        = (sendJsonBody jsonSize maxStack written postOk).heapAllocs
    ∧ (sendJsonBody jsonSize maxStack written postOk).heapFrees ≤ 1
    ∧ (sendJsonBody jsonSize maxStack written postOk).usedStackBuffer
        = !(decide (maxStack < jsonSize)) := by
  unfold sendJsonBody
  by_cases h : maxStack < jsonSize <;> by_cases h2 : written < u32pred jsonSize <;>
    simp [h, h2]

/-- Inserting a fresh key into a document whose pool is exhausted fails. -/
theorem insert_fresh_full (d : JsonDoc) (k : String) (v : TBValue)
    (hfresh : ¬ k ∈ d.members.map Prod.fst) (hfull : d.capacity ≤ d.members.length) :
    d.insert k v = none := by
  unfold JsonDoc.insert
  rw [if_neg (by simpa using hfresh), if_neg (by omega)]

/-- Inserting a fresh key into a document with a free slot appends the member. -/
theorem insert_fresh_space (d : JsonDoc) (k : String) (v : TBValue)
    (hfresh : ¬ k ∈ d.members.map Prod.fst) (hroom : d.members.length < d.capacity) :
    d.insert k v = some { d with members := d.members ++ [(k, v)] } := by
  unfold JsonDoc.insert
  rw [if_neg (by simpa using hfresh), if_pos hroom]

/-- The contribution loop fails whenever the records are more than the free
member slots, provided the records are non-empty with pairwise-distinct keys
also fresh with respect to the document. -/
theorem runContributions_none_of_overflow (records : List Telemetry) :
    ∀ (d : JsonDoc),
      (∀ r ∈ records, r.IsEmpty = false) →
      (records.filterMap Telemetry.keyOf ++ d.members.map Prod.fst).Nodup →
      d.members.length ≤ d.capacity →
      d.capacity < d.members.length + records.length →
      (runContributions records d).1 = none := by
  induction records with
  | nil =>
    intro d _ _ hle hover
    simp at hover
    exact absurd hover (by omega)
  | cons r rest ih =>
    intro d hvalid hnodup hle hover
    cases r with
    | empty =>
      have h := hvalid .empty (by simp)
      simp [Telemetry.IsEmpty] at h
    | record k v =>
      have hnodup1 : (k :: (rest.filterMap Telemetry.keyOf ++ d.members.map Prod.fst)).Nodup := by
        simpa [Telemetry.keyOf] using hnodup
      have hkfresh : ¬ k ∈ d.members.map Prod.fst := fun hm =>
        (List.nodup_cons.mp hnodup1).1 (List.mem_append.mpr (Or.inr hm))
      by_cases hroom : d.members.length < d.capacity
      · have hins := insert_fresh_space d k v hkfresh hroom
        have hperm :
            List.Perm
              (rest.filterMap Telemetry.keyOf ++ (d.members.map Prod.fst ++ [k]))
              (k :: (rest.filterMap Telemetry.keyOf ++ d.members.map Prod.fst)) := by
          rw [(List.append_assoc (rest.filterMap Telemetry.keyOf)
                (d.members.map Prod.fst) [k]).symm]
          exact List.perm_append_singleton k _
        have ihr := ih { d with members := d.members ++ [(k, v)] }
          (fun x hx => hvalid x (by simp [hx]))
          (by
            simp only [List.map_append, List.map_cons, List.map_nil]
            exact hperm.symm.nodup hnodup1)
          (by simp; omega)
          (by simp at hover ⊢; omega)
        simp only [runContributions, Telemetry.SerializeKeyValue, hins]
        simpa using ihr
      · have hins := insert_fresh_full d k v hkfresh (by omega)
        simp [runContributions, Telemetry.SerializeKeyValue, hins]

/-- The contribution loop fails whenever some record in the sequence is empty. -/
theorem runContributions_none_of_mem_empty (records : List Telemetry) :
    ∀ (d : JsonDoc), (∃ r ∈ records, r.IsEmpty = true) →
      (runContributions records d).1 = none := by
  induction records with
  | nil =>
    intro d h
    simp at h
  | cons r rest ih =>
    intro d h
    cases r with
    | empty => simp [runContributions, Telemetry.SerializeKeyValue]
    | record k v =>
      have hrest : ∃ x ∈ rest, x.IsEmpty = true := by
        rcases h with ⟨x, hx, hempty⟩
        rcases List.mem_cons.mp hx with h1 | h1
        · rw [h1] at hempty; simp [Telemetry.IsEmpty] at hempty
        · exact ⟨x, h1, hempty⟩
      cases hins : (Telemetry.record k v).SerializeKeyValue d with
      | none => simp [runContributions, hins]
      | some d2 => simp [runContributions, hins, ih d2 hrest]

/-- C2 (counterexample): for nine non-empty records with `MaxFieldsAmt = 8`,
`sendDataArray` does not fail with the capacity-exceeded condition
(`TOO_MANY_JSON_FIELDS`); it logs the serialization-failed condition
(`UNABLE_TO_SERIALIZE`), and only after all nine contribution calls have been
attempted — serialization work is not avoided. -/
theorem sendDataArray_nine_cex :
    (sendDataArray 8 100 nineRecords true).logged ≠ some .capacityExceeded
    ∧ (sendDataArray 8 100 nineRecords true).logged = some .unableToSerialize
    ∧ (sendDataArray 8 100 nineRecords true).contributions = 9
    ∧ (sendDataArray 8 100 nineRecords true).measured = false := by
  decide

/-- C2 (amended): in the fixed-capacity configuration, a sequence of non-empty
records with pairwise-distinct keys whose count exceeds `MaxFieldsAmt` makes
`sendDataArray` fail with the serialization-failed condition
(`UNABLE_TO_SERIALIZE`, raised when a contribution against the full
fixed-capacity document fails), before any size measurement and before any
buffer is requested — but after contribution work on the records has begun. -/
theorem sendDataArray_overflow_serialization_failed
    (maxFields maxStack : Nat) (records : List Telemetry) (postOk : Bool)
    (hvalid : ∀ r ∈ records, r.IsEmpty = false)
    (hnodup : (records.filterMap Telemetry.keyOf).Nodup)
    (hover : maxFields < records.length) :
    (sendDataArray maxFields maxStack records postOk).result = false
    ∧ (sendDataArray maxFields maxStack records postOk).logged = some .unableToSerialize
    ∧ (sendDataArray maxFields maxStack records postOk).measured = false
    ∧ (sendDataArray maxFields maxStack records postOk).bufferRequested = false := by
  have hrc := runContributions_none_of_overflow records
    { capacity := maxFields, members := [] }
    hvalid (by simpa using hnodup) (by simp) (by simpa using hover)
  rcases hp : runContributions records { capacity := maxFields, members := [] } with ⟨res, n⟩
  rw [hp] at hrc
  simp only at hrc
  subst hrc
  simp only [sendDataArray, hp]
  simp

/-- C2 (witness): the amended theorem applied to the nine-record scenario. -/
theorem sendDataArray_overflow_witness :
    8 < nineRecords.length
    ∧ (sendDataArray 8 100 nineRecords true).logged = some SendError.unableToSerialize
    ∧ (sendDataArray 8 100 nineRecords true).measured = false := by
  refine ⟨by decide, ?_, ?_⟩
  · exact (sendDataArray_overflow_serialization_failed 8 100 nineRecords true
      (by decide) (by decide) (by decide)).2.1
  · exact (sendDataArray_overflow_serialization_failed 8 100 nineRecords true
      (by decide) (by decide) (by decide)).2.2.1

/-- C3 (counterexample): an empty record is not silently skipped — with a valid
record followed by a record built from a null key, `sendDataArray` fails with the
serialization-failed condition; and a sequence of only empty records also fails
with the serialization-failed condition (`UNABLE_TO_SERIALIZE`), not with a
distinct nothing-to-send condition (no buffer is requested, though). -/
theorem sendDataArray_empty_cex :
    ((sendDataArray 8 100
        [mkTelemetry .tInt (some "a") (.vInt 1), mkTelemetry .tInt none (.vInt 2)] true).result
          = false
      ∧ (sendDataArray 8 100
          [mkTelemetry .tInt (some "a") (.vInt 1), mkTelemetry .tInt none (.vInt 2)] true).logged
            = some .unableToSerialize)
    ∧ ((sendDataArray 8 100 [mkTelemetry .tInt none (.vInt 1)] true).logged
          = some .unableToSerialize
      ∧ (sendDataArray 8 100 [mkTelemetry .tInt none (.vInt 1)] true).contributions = 1
      ∧ (sendDataArray 8 100 [mkTelemetry .tInt none (.vInt 1)] true).bufferRequested = false) := by
  decide

/-- C3 (amended): empty records are not skipped: whenever the sequence contains an
empty record, `sendDataArray` aborts with the serialization-failed condition
(`UNABLE_TO_SERIALIZE`) — in particular a sequence consisting solely of empty
records fails this way, not with a nothing-to-send condition — and it does so
before any measurement and before any buffer is requested. -/
theorem sendDataArray_empty_record_fails
    (maxFields maxStack : Nat) (records : List Telemetry) (postOk : Bool)
    (hmem : ∃ r ∈ records, r.IsEmpty = true) :
    (sendDataArray maxFields maxStack records postOk).result = false
    ∧ (sendDataArray maxFields maxStack records postOk).logged = some .unableToSerialize
    ∧ (sendDataArray maxFields maxStack records postOk).measured = false
    ∧ (sendDataArray maxFields maxStack records postOk).bufferRequested = false := by
  have hrc := runContributions_none_of_mem_empty records
    { capacity := maxFields, members := [] } hmem
  rcases hp : runContributions records { capacity := maxFields, members := [] } with ⟨res, n⟩
  rw [hp] at hrc
  simp only at hrc
  subst hrc
  simp only [sendDataArray, hp]
  simp

/-- C3 (witness): the amended theorem applied to a sequence holding only a record
constructed from a null key. -/
theorem sendDataArray_empty_record_witness :
    (mkTelemetry .tInt none (.vInt 1)).IsEmpty = true
    ∧ (sendDataArray 8 100 [mkTelemetry .tInt none (.vInt 1)] true).result = false
    ∧ (sendDataArray 8 100 [mkTelemetry .tInt none (.vInt 1)] true).bufferRequested = false := by
  refine ⟨by decide, ?_, ?_⟩
  · exact (sendDataArray_empty_record_fails 8 100 [mkTelemetry .tInt none (.vInt 1)] true
      ⟨mkTelemetry .tInt none (.vInt 1), by simp, by decide⟩).1
  · exact (sendDataArray_empty_record_fails 8 100 [mkTelemetry .tInt none (.vInt 1)] true
      ⟨mkTelemetry .tInt none (.vInt 1), by simp, by decide⟩).2.2.2

/-- C4: after serializing into the provisioned buffer the operation accepts the
write only when the written count reaches `requiredBytes - 1`; on any run in
which the count differs (it can only be smaller, since `serializeJson` writes at
most `capacity - 1` characters plus the terminator — that bound is the
hypothesis), the operation logs the serialization failure, returns false, and the
payload is never handed on towards `postMessage`. -/
theorem sendJsonBody_mismatch_not_posted
    (jsonSize maxStack written : Nat) (postOk : Bool)
    (hle : written ≤ u32pred jsonSize) (hne : written ≠ u32pred jsonSize) :
    (sendJsonBody jsonSize maxStack written postOk).result = false
    ∧ (sendJsonBody jsonSize maxStack written postOk).loggedSerializeFailure = true
    ∧ (sendJsonBody jsonSize maxStack written postOk).posted = false := by
  have hlt : written < u32pred jsonSize := lt_of_le_of_ne hle hne
  unfold sendJsonBody
  by_cases h : maxStack < jsonSize <;> simp [h, hlt]

/-- C4 (witness): a run with `requiredBytes = 10` whose serializer reports only 5
written bytes fails and never reaches the transport. -/
theorem sendJsonBody_mismatch_witness :
    (5 : Nat) ≤ u32pred 10 ∧ (5 : Nat) ≠ u32pred 10
    ∧ (sendJsonBody 10 3 5 true).result = false
    ∧ (sendJsonBody 10 3 5 true).posted = false := by
  have h := sendJsonBody_mismatch_not_posted 10 3 5 true (by decide) (by decide)
  exact ⟨by decide, by decide, h.1, h.2.2⟩

/-- C5: for every well-formed format/argument pair, `Helper::detectSize` returns
the rendered length plus one terminator byte (within `int` range), and
`Helper::Measure_Json` returns the measured serialized size plus one byte. -/
theorem measure_size_contracts :
    (∀ (fmt : String) (args : List PrintfArg) (s : String),
        render fmt args = some s → s.length + 1 < I32HALF →
        Helper.detectSize fmt args = some ((s.length : Int) + 1))
    ∧ (∀ d : JsonDoc, Measure_Json d = measureJson d + 1) := by
  refine ⟨?_, fun d => rfl⟩
  intro fmt args s hr hsmall
  have hs : snprintfSize fmt args = (s.length : Int) := by
    unfold snprintfSize
    rw [hr]
  have hsmall2 : s.length + 1 < 2147483648 := by
    simpa [I32HALF] using hsmall
  have h1 : u32ofInt ((s.length : Int)) = s.length := by
    unfold u32ofInt U32MOD
    omega
  have h2 : (s.length + 1) % U32MOD = s.length + 1 := by
    unfold U32MOD
    omega
  have h3 : i32ofU32 (s.length + 1) = (s.length : Int) + 1 := by
    unfold i32ofU32 I32HALF U32MOD
    omega
  unfold Helper.detectSize
  rw [hs, h1, h2, h3]
  rw [if_pos (by omega)]

/-- C5 (witness): the contracts evaluated on the HTTP failure log format and a
concrete two-member document. -/
theorem measure_size_contracts_witness :
    Helper.detectSize "(%s) failed HTTP response (%d)" [.aStr "POST", .aInt 404] = some 34
    ∧ Measure_Json { capacity := 8, members := [("on", .vBool true)] } = 12 := by
  constructor
  · have h := measure_size_contracts.1 "(%s) failed HTTP response (%d)"
      [.aStr "POST", .aInt 404] "(POST) failed HTTP response (404)" (by decide) (by decide)
    simpa using h
  · exact measure_size_contracts.2 { capacity := 8, members := [("on", .vBool true)] }

/-- C6: the claim (and the source's own comment) require that a negative dry-run
size trips the assertion and that the returned byte count is at least 1; but on a
dry-run result of -1 — the C library's error return, produced here by a
type-mismatched argument — `snprintf(...) + 1U` is 0, `assert(result >= 0)`
passes, and both `Helper::detectSize` and `ThingsBoardHttpSized::detectSize`
return 0 instead of terminating. -/
theorem detectSize_negative_dryrun_escapes :
    snprintfSize "%d" [.aStr "x"] = -1
    ∧ Helper.detectSize "%d" [.aStr "x"] = some 0
    ∧ tbDetectSize "%d" [.aStr "x"] = some 0 := by
  decide

/-- C7: `ThingsBoardHttpSized::detectSize` computes the required size as a signed
32-bit value but returns it through a `uint8_t`: whenever the true requirement
(rendered length plus terminator) exceeds 255, the returned value is the true
requirement modulo 256, strictly smaller than the true requirement. -/
theorem tbDetectSize_truncates
    (fmt : String) (args : List PrintfArg) (s : String)
    (hr : render fmt args = some s)
    (hbig : 255 < s.length + 1)
    (hsmall : s.length + 1 < I32HALF) :
    tbDetectSize fmt args = some ((s.length + 1) % 256)
    ∧ (s.length + 1) % 256 < s.length + 1 := by
  have hs : snprintfSize fmt args = (s.length : Int) := by
    unfold snprintfSize
    rw [hr]
  have hsmall2 : s.length + 1 < 2147483648 := by
    simpa [I32HALF] using hsmall
  have h1 : u32ofInt ((s.length : Int) + 1) = s.length + 1 := by
    unfold u32ofInt U32MOD
    omega
  have h2 : i32ofU32 (s.length + 1) = ((s.length : Int)) + 1 := by
    unfold i32ofU32 I32HALF U32MOD
    omega
  constructor
  · unfold tbDetectSize
    rw [hs, h1, h2]
    rw [if_pos (by omega)]
    have ht : ((s.length : Int) + 1).toNat = s.length + 1 := by omega
    rw [ht]
  · omega

set_option maxRecDepth 8192 in
/-- C7 (witness): a 300-character string argument needs 301 bytes but the
returned `uint8_t` is 45 = 301 mod 256, under-sizing the buffer. -/
theorem tbDetectSize_truncates_witness :
    tbDetectSize "%s" [.aStr bigStr] = some 45 ∧ (45 : Nat) < 301 := by
  have h := tbDetectSize_truncates "%s" [.aStr bigStr] bigStr (by decide) (by decide) (by decide)
  have hlen : bigStr.length = 300 := by decide
  rw [hlen] at h
  exact ⟨by simpa using h.1, by decide⟩

/-- C8: a record constructed from a null key or a type-mismatched value is empty,
and `sendKeyValue` on it is a no-op returning false: no JSON document is built
and the transport is never contacted. -/
theorem sendKeyValue_empty_noop
    (maxFields maxStack : Nat) (tag : DataType) (key : Option String) (v : TBValue)
    (postOk : Bool) (h : (mkTelemetry tag key v).IsEmpty = true) :
    (sendKeyValue maxFields maxStack tag key v postOk).result = false
    ∧ (sendKeyValue maxFields maxStack tag key v postOk).docBuilt = false
    ∧ (sendKeyValue maxFields maxStack tag key v postOk).posted = false := by
  unfold sendKeyValue
  simp [h]

/-- C8 (witness): the element-wise no-op on a record with a null key. -/
theorem sendKeyValue_empty_noop_witness :
    (mkTelemetry .tInt none (.vInt 7)).IsEmpty = true
    ∧ (sendKeyValue 8 100 .tInt none (.vInt 7) true).result = false
    ∧ (sendKeyValue 8 100 .tInt none (.vInt 7) true).posted = false := by
  have h := sendKeyValue_empty_noop 8 100 .tInt none (.vInt 7) true (by decide)
  exact ⟨by decide, h.1, h.2.2⟩

/-- C9: the aggregate-and-serialize cycle is deterministic — two successful
`sendDataArray` runs over the same record sequence hand byte-identical payload
strings to the transport. -/
theorem sendDataArray_payload_deterministic
    (maxFields maxStack : Nat) (records : List Telemetry) (postOk : Bool)
    (s1 s2 : String)
    (h1 : (sendDataArray maxFields maxStack records postOk).payload = some s1)
    (h2 : (sendDataArray maxFields maxStack records postOk).payload = some s2) :
    s1 = s2 := by
  rw [h1] at h2
  exact Option.some.inj h2

set_option maxRecDepth 8192 in
/-- C9 (witness): two runs over the float/boolean scenario records both produce
the same serialized object. -/
theorem sendDataArray_payload_deterministic_witness :
    (sendDataArray 8 100 twoRecords true).payload
      = some "\x7b\x22temp\x22:21.5,\x22on\x22:true\x7d"
    ∧ ("\x7b\x22temp\x22:21.5,\x22on\x22:true\x7d" : String)
      = "\x7b\x22temp\x22:21.5,\x22on\x22:true\x7d" := by
  refine ⟨by decide, ?_⟩
  exact sendDataArray_payload_deterministic 8 100 twoRecords true
    "\x7b\x22temp\x22:21.5,\x22on\x22:true\x7d" "\x7b\x22temp\x22:21.5,\x22on\x22:true\x7d"
    (by decide) (by decide)

/-- C10: the caller-supplied response string is assigned the response body
exactly on the success path of `getMessage`; whenever the returned flag is false
the response string still holds its initial contents. -/
theorem getMessage_response_frame
    (success : Bool) (status : Int) (body response0 : String) :
    (getMessage success status body response0).response
      = (if (getMessage success status body response0).result then body else response0) := by
  unfold getMessage
  split <;> simp

end TBHttp
